import Mathlib

/-!
Shallow embedding of the WebStrafe movement / collision core.

Scalars are modelled as real numbers (the source operates on JS doubles);
vectors are records of three reals mirroring `three.js` `Vector3`.
Every definition is translated from the repository source:
`MovementMath` (the kinematics functions), `CollisionWorld`
(`src/world/CollisionWorld.ts`) and `MovementController`
(`src/movement/MovementController.ts`).
-/

set_option maxHeartbeats 1000000

noncomputable section

namespace WebStrafe

/-- A 3D vector of reals, mirroring `three.js` `Vector3`. -/
@[ext]
structure Vec3 where
  x : ℝ
  y : ℝ
  z : ℝ

namespace Vec3

def zero : Vec3 := ⟨0, 0, 0⟩

def add (a b : Vec3) : Vec3 := ⟨a.x + b.x, a.y + b.y, a.z + b.z⟩

def sub (a b : Vec3) : Vec3 := ⟨a.x - b.x, a.y - b.y, a.z - b.z⟩

def neg (a : Vec3) : Vec3 := ⟨-a.x, -a.y, -a.z⟩

def smul (s : ℝ) (a : Vec3) : Vec3 := ⟨s * a.x, s * a.y, s * a.z⟩

instance : Add Vec3 := ⟨add⟩

instance : Sub Vec3 := ⟨sub⟩

instance : Neg Vec3 := ⟨neg⟩

instance : SMul ℝ Vec3 := ⟨smul⟩

/-- `Vector3.dot`. -/
def dot (a b : Vec3) : ℝ := a.x * b.x + a.y * b.y + a.z * b.z

/-- `Vector3.lengthSq`. -/
def lengthSq (a : Vec3) : ℝ := a.x * a.x + a.y * a.y + a.z * a.z

/-- `Vector3.length`. -/
def length (a : Vec3) : ℝ := Real.sqrt a.lengthSq

/-- `Vector3.addScaledVector(b, s)`. -/
def addScaled (a b : Vec3) (s : ℝ) : Vec3 := a + s • b

/-- `Vector3.crossVectors`. -/
def cross (a b : Vec3) : Vec3 :=
  ⟨a.y * b.z - a.z * b.y, a.z * b.x - a.x * b.z, a.x * b.y - a.y * b.x⟩

/-- `Vector3.normalize`: `divideScalar(length || 1)` — a zero-length vector is
returned unchanged. -/
def normalize (a : Vec3) : Vec3 := if a.length = 0 then a else (1 / a.length) • a

/-- `Vector3.setLength(l)`: `normalize().multiplyScalar(l)`. -/
def setLength (a : Vec3) (l : ℝ) : Vec3 := l • a.normalize

/-- `Vector3.setY`. -/
def setY (a : Vec3) (v : ℝ) : Vec3 := ⟨a.x, v, a.z⟩

@[simp] lemma add_def (a b : Vec3) : a + b = ⟨a.x + b.x, a.y + b.y, a.z + b.z⟩ := rfl

@[simp] lemma sub_def (a b : Vec3) : a - b = ⟨a.x - b.x, a.y - b.y, a.z - b.z⟩ := rfl

@[simp] lemma neg_def (a : Vec3) : -a = ⟨-a.x, -a.y, -a.z⟩ := rfl

@[simp] lemma smul_def (s : ℝ) (a : Vec3) : s • a = ⟨s * a.x, s * a.y, s * a.z⟩ := rfl

end Vec3

/-- World up, `UP = (0, 1, 0)`. -/
def UPv : Vec3 := ⟨0, 1, 0⟩

/-- World down, `DOWN = (0, -1, 0)`. -/
def DOWNv : Vec3 := ⟨0, -1, 0⟩

/-! ## MovementMath — the pure kinematics functions -/

/-- `EPSILON = 1e-6` from `MovementMath`. -/
def EPSILON : ℝ := 1 / 1000000

/-- `Math.hypot(v.x, v.z)` — horizontal (XZ) speed of a velocity vector. -/
def horizontalLength (v : Vec3) : ℝ := Real.sqrt (v.x ^ 2 + v.z ^ 2)

/-- `accelerate(vel, wishDir, wishSpeed, accel, dt, surfaceFriction)`. -/
def accelerate (vel wishDir : Vec3) (wishSpeed accel dt surfaceFriction : ℝ) : Vec3 :=
  let currentSpeed := vel.dot wishDir
  let addSpeed := wishSpeed - currentSpeed
  if addSpeed ≤ 0 then vel
  else
    let accelSpeed := min (accel * dt * wishSpeed * surfaceFriction) addSpeed
    vel.addScaled wishDir accelSpeed

/-- `applyFriction(vel, dt, friction, stopspeed)`. -/
def applyFriction (vel : Vec3) (dt friction stopspeed : ℝ) : Vec3 :=
  let speed := Real.sqrt (vel.x ^ 2 + vel.z ^ 2)
  if speed ≤ EPSILON then { vel with x := 0, z := 0 }
  else
    let control := max speed stopspeed
    let drop := control * friction * dt
    let newSpeed := max 0 (speed - drop)
    let scale := newSpeed / speed
    { vel with x := vel.x * scale, z := vel.z * scale }

/-- `clipVelocity(vel, normal, overbounce)`. -/
def clipVelocity (vel normal : Vec3) (overbounce : ℝ) : Vec3 :=
  let backoff := vel.dot normal * overbounce
  let next := vel.addScaled normal (-backoff)
  let adjust := next.dot normal
  if adjust < 0 then next.addScaled normal (-adjust) else next

/-- `clampHorizontalSpeed(vel, maxSpeed)`. -/
def clampHorizontalSpeed (vel : Vec3) (maxSpeed : ℝ) : Vec3 :=
  let horizontalSpeed := Real.sqrt (vel.x ^ 2 + vel.z ^ 2)
  if horizontalSpeed ≤ maxSpeed ∨ horizontalSpeed ≤ EPSILON then vel
  else
    let scale := maxSpeed / horizontalSpeed
    { vel with x := vel.x * scale, z := vel.z * scale }

/-- `projectDirectionOnPlane(dir, normal)`. -/
def projectDirectionOnPlane (dir normal : Vec3) : Vec3 :=
  let projected := dir.addScaled normal (-(dir.dot normal))
  if projected.lengthSq ≤ EPSILON then Vec3.zero
  else projected.normalize

/-! ## Claims C1 and C2 -/

/-- **C1.** For every velocity `v`, every (unit) surface normal `n` and every
overbounce factor, the result of `clipVelocity(v, n, overbounce)` has
non-negative dot product with `n`: the clipped velocity never points back into
the surface. -/
theorem clipVelocity_dot_nonneg (v n : Vec3) (overbounce : ℝ)
    (hn : n.lengthSq = 1) : 0 ≤ (clipVelocity v n overbounce).dot n := by
  have hnn : n.dot n = 1 := by
    simpa [Vec3.lengthSq, Vec3.dot, mul_comm] using hn
  unfold clipVelocity
  set backoff := v.dot n * overbounce with hb
  set next := v.addScaled n (-backoff) with hnext
  by_cases h : next.dot n < 0
  · simp only [h, if_pos]
    have : (next.addScaled n (-(next.dot n))).dot n
        = next.dot n + (-(next.dot n)) * (n.dot n) := by
      simp [Vec3.addScaled, Vec3.dot, Vec3.add_def, Vec3.smul_def]
      ring
    rw [this, hnn]
    ring_nf
    exact le_refl 0
  · simp only [h, if_neg, not_false_iff]
    exact le_of_not_lt h

/-- Witness for C1 at `v = (0, -1, 0)`, `n = (0, 1, 0)`, `overbounce = 1.001`. -/
theorem clipVelocity_dot_nonneg_witness :
    (⟨0, 1, 0⟩ : Vec3).lengthSq = 1 ∧
      0 ≤ (clipVelocity ⟨0, -1, 0⟩ ⟨0, 1, 0⟩ 1.001).dot ⟨0, 1, 0⟩ := by
  refine ⟨by norm_num [Vec3.lengthSq], ?_⟩
  exact clipVelocity_dot_nonneg ⟨0, -1, 0⟩ ⟨0, 1, 0⟩ 1.001 (by norm_num [Vec3.lengthSq])

/-- **C2.** `accelerate` computes `addSpeed = wishSpeed - vel·wishDir`; when
`addSpeed ≤ 0` it returns `vel` unchanged, otherwise it adds
`min(accel*dt*wishSpeed*surfaceFriction, addSpeed)` along `wishDir`. -/
theorem accelerate_spec (vel wishDir : Vec3) (wishSpeed accel dt surfaceFriction : ℝ) :
    (wishSpeed - vel.dot wishDir ≤ 0 →
      accelerate vel wishDir wishSpeed accel dt surfaceFriction = vel) ∧
    (0 < wishSpeed - vel.dot wishDir →
      accelerate vel wishDir wishSpeed accel dt surfaceFriction =
        vel + (min (accel * dt * wishSpeed * surfaceFriction)
          (wishSpeed - vel.dot wishDir)) • wishDir) := by
  constructor
  · intro h
    simp [accelerate, h]
  · intro h
    simp [accelerate, not_le.mpr h, Vec3.addScaled]

/-- Witness for C2: both branches at concrete inputs. -/
theorem accelerate_spec_witness :
    accelerate ⟨5, 0, 0⟩ ⟨1, 0, 0⟩ 3 10 1 1 = ⟨5, 0, 0⟩ ∧
      accelerate ⟨1, 0, 0⟩ ⟨1, 0, 0⟩ 3 10 1 1 =
        (⟨1, 0, 0⟩ : Vec3) + (min (10 * 1 * 3 * 1) (3 - Vec3.dot ⟨1, 0, 0⟩ ⟨1, 0, 0⟩)) • (⟨1, 0, 0⟩ : Vec3) := by
  constructor
  · exact (accelerate_spec ⟨5, 0, 0⟩ ⟨1, 0, 0⟩ 3 10 1 1).1 (by norm_num [Vec3.dot])
  · exact (accelerate_spec ⟨1, 0, 0⟩ ⟨1, 0, 0⟩ 3 10 1 1).2 (by norm_num [Vec3.dot])

lemma horizontalLength_nonneg (v : Vec3) : 0 ≤ horizontalLength v :=
  Real.sqrt_nonneg _

lemma horizontalLength_scale (v : Vec3) (c : ℝ) (hc : 0 ≤ c) :
    horizontalLength { v with x := v.x * c, z := v.z * c } = c * horizontalLength v := by
  unfold horizontalLength
  have h1 : (v.x * c) ^ 2 + (v.z * c) ^ 2 = c ^ 2 * (v.x ^ 2 + v.z ^ 2) := by ring
  rw [h1, Real.sqrt_mul (sq_nonneg c), Real.sqrt_sq hc]

/-- **C3.** `applyFriction` leaves Y untouched; for horizontal speed `s ≈ 0`
(at most `EPSILON`) it zeroes the horizontal velocity exactly; otherwise it
scales the horizontal velocity by `max(0, s - drop)/s` where
`drop = max(s, stopspeed) * friction * dt`; and for `s > stopspeed` (with a
positive timestep and friction coefficient and non-negative stopspeed) it
strictly reduces the horizontal speed. -/
theorem applyFriction_spec (vel : Vec3) (dt friction stopspeed : ℝ) :
    (applyFriction vel dt friction stopspeed).y = vel.y ∧
    (horizontalLength vel ≤ EPSILON →
      (applyFriction vel dt friction stopspeed).x = 0 ∧
        (applyFriction vel dt friction stopspeed).z = 0) ∧
    (EPSILON < horizontalLength vel →
      applyFriction vel dt friction stopspeed =
        { vel with
            x := vel.x * (max 0 (horizontalLength vel -
              max (horizontalLength vel) stopspeed * friction * dt) / horizontalLength vel),
            z := vel.z * (max 0 (horizontalLength vel -
              max (horizontalLength vel) stopspeed * friction * dt) / horizontalLength vel) }) ∧
    (0 < dt → 0 < friction → 0 ≤ stopspeed → stopspeed < horizontalLength vel →
      horizontalLength (applyFriction vel dt friction stopspeed) < horizontalLength vel) := by
  have hs : horizontalLength vel = Real.sqrt (vel.x ^ 2 + vel.z ^ 2) := rfl
  have heq0 : horizontalLength vel ≤ EPSILON →
      applyFriction vel dt friction stopspeed = { vel with x := 0, z := 0 } := by
    intro h
    simp only [applyFriction]
    rw [if_pos (by rw [← hs]; exact h)]
  have heq1 : EPSILON < horizontalLength vel →
      applyFriction vel dt friction stopspeed =
        { vel with
            x := vel.x * (max 0 (horizontalLength vel -
              max (horizontalLength vel) stopspeed * friction * dt) / horizontalLength vel),
            z := vel.z * (max 0 (horizontalLength vel -
              max (horizontalLength vel) stopspeed * friction * dt) / horizontalLength vel) } := by
    intro h
    simp only [applyFriction]
    rw [if_neg (by rw [← hs]; exact not_le.mpr h), ← hs]
  refine ⟨?_, ?_, ?_, ?_⟩
  · rcases le_or_lt (horizontalLength vel) EPSILON with h | h
    · rw [heq0 h]
    · rw [heq1 h]
  · intro h
    rw [heq0 h]
    exact ⟨rfl, rfl⟩
  · exact heq1
  · intro hdt hf hss hlt
    have hspos : 0 < horizontalLength vel := lt_of_le_of_lt hss hlt
    by_cases hcase : horizontalLength vel ≤ EPSILON
    · rw [heq0 hcase]
      have : horizontalLength { vel with x := (0:ℝ), z := (0:ℝ) } = 0 := by
        simp [horizontalLength]
      rw [this]
      exact hspos
    · rw [heq1 (not_le.mp hcase)]
      set s := horizontalLength vel with hsdef
      have hnewscale : 0 ≤ max 0 (s - max s stopspeed * friction * dt) / s :=
        div_nonneg (le_max_left _ _) (le_of_lt hspos)
      have hres : horizontalLength
          { vel with
              x := vel.x * (max 0 (s - max s stopspeed * friction * dt) / s),
              z := vel.z * (max 0 (s - max s stopspeed * friction * dt) / s) }
          = (max 0 (s - max s stopspeed * friction * dt) / s) * s := by
        rw [horizontalLength_scale vel _ hnewscale, ← hsdef]
      rw [hres]
      have hdrop : 0 < max s stopspeed * friction * dt := by
        have h1 : 0 < max s stopspeed := lt_of_lt_of_le hspos (le_max_left _ _)
        positivity
      have hnewlt : max 0 (s - max s stopspeed * friction * dt) < s := by
        rcases max_cases 0 (s - max s stopspeed * friction * dt) with ⟨hm, _⟩ | ⟨hm, _⟩
        · rw [hm]; exact hspos
        · rw [hm]; linarith
      calc max 0 (s - max s stopspeed * friction * dt) / s * s
          = max 0 (s - max s stopspeed * friction * dt) := by
            field_simp
        _ < s := hnewlt

/-- Witness for C3 at `vel = (3, 7, 4)` (horizontal speed 5),
`dt = friction = stopspeed = 1`. -/
theorem applyFriction_spec_witness :
    (1:ℝ) < horizontalLength ⟨3, 7, 4⟩ ∧
      horizontalLength (applyFriction ⟨3, 7, 4⟩ 1 1 1) < horizontalLength ⟨3, 7, 4⟩ ∧
      (applyFriction ⟨3, 7, 4⟩ 1 1 1).y = (7:ℝ) := by
  have h5 : horizontalLength ⟨3, 7, 4⟩ = 5 := by
    unfold horizontalLength
    rw [show ((3:ℝ) ^ 2 + (4:ℝ) ^ 2) = 5 ^ 2 by norm_num, Real.sqrt_sq (by norm_num)]
  refine ⟨by rw [h5]; norm_num, ?_, ?_⟩
  · exact (applyFriction_spec ⟨3, 7, 4⟩ 1 1 1).2.2.2 (by norm_num) (by norm_num)
      (by norm_num) (by rw [h5]; norm_num)
  · exact (applyFriction_spec ⟨3, 7, 4⟩ 1 1 1).1

/-! ## CollisionWorld (`src/world/CollisionWorld.ts`) -/

/-- `SKIN_WIDTH = 0.0005`. -/
def SKIN_WIDTH : ℝ := 0.0005

structure CapsuleShape where
  height : ℝ
  radius : ℝ

structure GroundProbe where
  distance : ℝ
  position : Vec3
  normal : Vec3
  slopeAngleDeg : ℝ

structure TraceResult where
  hit : Bool
  fraction : ℝ
  normal : Vec3
  position : Vec3

structure OverlapResult where
  collided : Bool
  normal : Vec3
  depth : ℝ
  position : Vec3

/-- A line segment (`three.js` `Line3`), with start point `sp` and end point
`ep`. -/
structure Segment where
  sp : Vec3
  ep : Vec3

/-- Result of the external `closestPointToSegment` query on a BVH triangle:
the distance together with the closest point on the triangle (`target1`) and
the closest point on the segment (`target2`). -/
structure ClosestHit where
  dist : ℝ
  triPoint : Vec3
  capsulePoint : Vec3

/-- One mesh triangle as consumed through the external `three-mesh-bvh`
capability: a closest-point-to-segment query plus the triangle's face normal
(`getNormal`).  The repository uses both as library primitives, so they are
modelled as data. -/
structure TriCapability where
  closest : Segment → ClosestHit
  faceNormal : Vec3

/-- The collision geometry: `null`, or the merged triangle list.  `shapecast`
over the BVH visits candidate triangles and is modelled as a fold over the
stored list; the `intersectsBounds` box test only prunes triangles whose
closest distance cannot be below the capsule radius, so it does not change
which triangles contribute. -/
abbrev WorldGeometry := Option (List TriCapability)

/-- Accumulator of `computeOverlap`'s shapecast loop. -/
structure OverlapAcc where
  collided : Bool
  iterCollided : Bool
  maxDepth : ℝ
  bestNormal : Vec3
  accumulatedPush : Vec3
  seg : Segment

/-- Body of `intersectsTriangle` inside `computeOverlap`'s `shapecast`. -/
def overlapTriStep (radius : ℝ) (resolve : Bool) (acc : OverlapAcc)
    (tri : TriCapability) : OverlapAcc :=
  let q := tri.closest acc.seg
  if radius ≤ q.dist then acc
  else
    let depth := radius - q.dist
    let push0 := q.capsulePoint - q.triPoint
    let triNormal := tri.faceNormal.normalize
    let push := (if push0.lengthSq < 1e-10 then triNormal else push0).normalize
    -- the source also sign-reconciles its scratch triangle normal against
    -- `push`; that scratch value is never read afterwards
    let accumulatedPush := acc.accumulatedPush.addScaled push depth
    let best := if acc.maxDepth < depth then (depth, push) else (acc.maxDepth, acc.bestNormal)
    let seg := if resolve then
        Segment.mk (acc.seg.sp.addScaled push (depth + SKIN_WIDTH))
          (acc.seg.ep.addScaled push (depth + SKIN_WIDTH))
      else acc.seg
    { collided := true, iterCollided := true, maxDepth := best.1, bestNormal := best.2,
      accumulatedPush := accumulatedPush, seg := seg }

/-- The `iterations` loop of `computeOverlap`: each round is one shapecast
pass over the candidate triangles, stopping early when a pass finds no
penetration. -/
def overlapIterLoop (tris : List TriCapability) (radius : ℝ) (resolve : Bool) :
    Nat → OverlapAcc → OverlapAcc
  | 0, acc => acc
  | n + 1, acc =>
    let acc1 := tris.foldl (overlapTriStep radius resolve) { acc with iterCollided := false }
    if acc1.iterCollided then overlapIterLoop tris radius resolve n acc1 else acc1

/-- The initial accumulator of `computeOverlap`: the capsule's inner vertical
segment (from `feet.y + radius` to `feet.y + max(radius + SKIN_WIDTH,
height - radius)`) with nothing collected yet. -/
def initOverlapAcc (feetPosition : Vec3) (capsule : CapsuleShape) : OverlapAcc :=
  { collided := false, iterCollided := false, maxDepth := 0,
    bestNormal := ⟨0, 1, 0⟩, accumulatedPush := Vec3.zero,
    seg := ⟨⟨feetPosition.x, feetPosition.y + capsule.radius, feetPosition.z⟩,
           ⟨feetPosition.x,
            feetPosition.y + max (capsule.radius + SKIN_WIDTH) (capsule.height - capsule.radius),
            feetPosition.z⟩⟩ }

/-- `computeOverlap(feetPosition, capsule, resolve)`. -/
def computeOverlap (geom : WorldGeometry) (feetPosition : Vec3) (capsule : CapsuleShape)
    (resolve : Bool) : OverlapResult :=
  match geom with
  | none => { collided := false, normal := ⟨0, 1, 0⟩, depth := 0, position := feetPosition }
  | some tris =>
    let iterations : Nat := if resolve then 3 else 1
    let acc := overlapIterLoop tris capsule.radius resolve iterations
      (initOverlapAcc feetPosition capsule)
    let resolvedFeet := acc.seg.sp.addScaled UPv (-capsule.radius)
    let resolvedNormal := if 1e-10 < acc.accumulatedPush.lengthSq
      then acc.accumulatedPush.normalize else acc.bestNormal
    { collided := acc.collided, normal := resolvedNormal, depth := acc.maxDepth,
      position := resolvedFeet }

/-- `resolveCapsulePosition(feetPosition, capsule)`. -/
def resolveCapsulePosition (geom : WorldGeometry) (feetPosition : Vec3)
    (capsule : CapsuleShape) : OverlapResult :=
  computeOverlap geom feetPosition capsule true

/-- `MathUtils.lerp(x, y, t) = (1 - t) * x + t * y`, componentwise
(`sampleLerp`). -/
def lerpV (a b : Vec3) (t : ℝ) : Vec3 :=
  ⟨(1 - t) * a.x + t * b.x, (1 - t) * a.y + t * b.y, (1 - t) * a.z + t * b.z⟩

/-- `MathUtils.clamp(value, lo, hi) = max(lo, min(hi, value))`. -/
def clampR (value lo hi : ℝ) : ℝ := max lo (min hi value)

/-- The 12-step coarse sweep of `traceCapsule`: the (1-based) index of the
first colliding sample, if any. -/
def coarseFirstHit (geom : WorldGeometry) (capsule : CapsuleShape) (cs ce : Vec3) :
    Option Nat :=
  (List.range 12).findSome? fun (k : ℕ) =>
    if (computeOverlap geom (lerpV cs ce (((k : ℝ) + 1) / 12)) capsule false).collided
    then some (k + 1 : ℕ) else none

/-- The 8-round bisection refinement of `traceCapsule` on the bracket
`(low, high)`. -/
def bisectLoop (geom : WorldGeometry) (capsule : CapsuleShape) (cs ce : Vec3) :
    Nat → ℝ × ℝ → ℝ × ℝ
  | 0, lh => lh
  | n + 1, lh =>
    let mid := (lh.1 + lh.2) * 0.5
    if (computeOverlap geom (lerpV cs ce mid) capsule false).collided
    then bisectLoop geom capsule cs ce n (lh.1, mid)
    else bisectLoop geom capsule cs ce n (mid, lh.2)

/-- `traceCapsule(startFeet, endFeet, capsule)`. -/
def traceCapsule (geom : WorldGeometry) (startFeet endFeet : Vec3)
    (capsule : CapsuleShape) : TraceResult :=
  match geom with
  | none => { hit := false, fraction := 1, normal := UPv, position := endFeet }
  | some _ =>
    let startResolved := computeOverlap geom startFeet capsule true
    let correctedStart := startResolved.position
    let delta := endFeet - startFeet
    let correctedEnd := correctedStart + delta
    if delta.lengthSq < 1e-12 then
      { hit := startResolved.collided,
        fraction := if startResolved.collided then 0 else 1,
        normal := startResolved.normal, position := correctedStart }
    else
      match coarseFirstHit geom capsule correctedStart correctedEnd with
      | none =>
        let resolvedEnd := computeOverlap geom correctedEnd capsule true
        { hit := resolvedEnd.collided, fraction := 1, normal := resolvedEnd.normal,
          position := resolvedEnd.position }
      | some i =>
        let low := ((i : ℝ) - 1) / 12
        let high := (i : ℝ) / 12
        let lh := bisectLoop geom capsule correctedStart correctedEnd 8 (low, high)
        let impactFraction := clampR lh.2 0 1
        let safeFraction := max 0 (impactFraction - 1e-4)
        let safePosition := lerpV correctedStart correctedEnd safeFraction
        let impactPosition := lerpV correctedStart correctedEnd impactFraction
        let impactOverlap := computeOverlap geom impactPosition capsule false
        let resolvedSafe := computeOverlap geom safePosition capsule true
        let hn1 := if impactOverlap.collided = false ∨ impactOverlap.normal.lengthSq < 1e-8
          then resolvedSafe.normal else impactOverlap.normal
        let hitNormal := if hn1.lengthSq < 1e-8 then UPv else hn1.normalize
        { hit := true, fraction := safeFraction, normal := hitNormal,
          position := resolvedSafe.position }

/-- `MathUtils.radToDeg`. -/
def radToDeg (r : ℝ) : ℝ := r * (180 / Real.pi)

/-- `queryGround(feetPosition, capsule, probeDistance)`. -/
def queryGround (geom : WorldGeometry) (feetPosition : Vec3) (capsule : CapsuleShape)
    (probeDistance : ℝ) : Option GroundProbe :=
  let target := feetPosition.addScaled DOWNv probeDistance
  let trace := traceCapsule geom feetPosition target capsule
  if trace.hit = false then none
  else
    let normal := if trace.normal.y < 0 then -trace.normal else trace.normal
    let clampedDot := clampR (normal.dot UPv) (-1) 1
    let slopeAngleDeg := radToDeg (Real.arccos clampedDot)
    some { distance := max 0 (feetPosition.y - trace.position.y),
           position := trace.position, normal := normal, slopeAngleDeg := slopeAngleDeg }

/-! ## Geometry setup (`setCollisionGeometry`) -/

/-- The geometry slot of a `CollisionWorld` as far as geometry setup is
concerned: the stored merged position buffer (`null` after `clear()`).  The
BVH built over it is the external index. -/
structure CollisionWorldState where
  collisionGeometry : Option (List Vec3)

inductive GeometrySetupError
  | emptyGeometry

/-- `setCollisionGeometry(geometry)`: `clear()` runs first (the held geometry
is disposed and nulled), then the cloned input's position attribute is
validated — a missing attribute or fewer than 3 position entries (no complete
triangle) raises an error — and otherwise the merged buffer is stored and the
BVH is rebuilt over it. -/
def setCollisionGeometry (_st : CollisionWorldState) (positions : List Vec3) :
    CollisionWorldState × Option GeometrySetupError :=
  let cleared : CollisionWorldState := { collisionGeometry := none }
  if positions.length < 3 then (cleared, some GeometrySetupError.emptyGeometry)
  else ({ collisionGeometry := some positions }, none)

/-- **C6.** `setCollisionGeometry` fails with the empty-geometry error exactly
when fewer than 3 position entries are supplied; for any larger input it
replaces the stored mesh (and rebuilds the index) without error; and on
failure the previously held geometry is not replaced by the degenerate input
(the world is left cleared). -/
theorem setCollisionGeometry_spec (st : CollisionWorldState) (positions : List Vec3) :
    ((setCollisionGeometry st positions).2 = some GeometrySetupError.emptyGeometry ↔
      positions.length < 3) ∧
    (3 ≤ positions.length →
      (setCollisionGeometry st positions).1.collisionGeometry = some positions ∧
        (setCollisionGeometry st positions).2 = none) ∧
    (positions.length < 3 →
      (setCollisionGeometry st positions).1.collisionGeometry ≠ some positions) := by
  unfold setCollisionGeometry
  by_cases h : positions.length < 3
  · simp [h]
  · simp [h, not_lt.mp h]

/-- Witness for C6: a 3-vertex triangle is accepted and stored; a 2-vertex
input fails and does not replace the held geometry. -/
theorem setCollisionGeometry_spec_witness :
    (setCollisionGeometry ⟨none⟩ [⟨0,0,0⟩, ⟨1,0,0⟩, ⟨0,0,1⟩]).1.collisionGeometry =
        some [⟨0,0,0⟩, ⟨1,0,0⟩, ⟨0,0,1⟩] ∧
      (setCollisionGeometry ⟨some [⟨0,0,0⟩, ⟨1,0,0⟩, ⟨0,0,1⟩]⟩ [⟨0,0,0⟩, ⟨1,0,0⟩]).1.collisionGeometry ≠
        some [⟨0,0,0⟩, ⟨1,0,0⟩] := by
  constructor
  · exact ((setCollisionGeometry_spec ⟨none⟩ _).2.1 (by simp)).1
  · exact (setCollisionGeometry_spec ⟨some [⟨0,0,0⟩, ⟨1,0,0⟩, ⟨0,0,1⟩]⟩ _).2.2 (by simp)

lemma radToDeg_arccos_nonneg (x : ℝ) : 0 ≤ radToDeg (Real.arccos x) := by
  unfold radToDeg
  have h1 : 0 ≤ Real.arccos x := Real.arccos_nonneg x
  have h2 : 0 ≤ (180 : ℝ) / Real.pi := by positivity
  exact mul_nonneg h1 h2

lemma radToDeg_arccos_le (x : ℝ) : radToDeg (Real.arccos x) ≤ 180 := by
  unfold radToDeg
  have h1 : Real.arccos x ≤ Real.pi := Real.arccos_le_pi x
  have h2 : 0 < (180 : ℝ) / Real.pi := by positivity
  calc Real.arccos x * (180 / Real.pi) ≤ Real.pi * (180 / Real.pi) :=
        mul_le_mul_of_nonneg_right h1 (le_of_lt h2)
    _ = 180 := by field_simp

/-- **C8.** `queryGround` returns `none` exactly when the downward trace by
`probeDistance` reports no hit; otherwise it returns a probe whose slope
angle equals the angle, in degrees, between the probe's (upward-oriented) hit
normal and world-up, and that angle always lies within `[0, 180]`. -/
theorem queryGround_spec (geom : WorldGeometry) (feetPosition : Vec3)
    (capsule : CapsuleShape) (probeDistance : ℝ) :
    (queryGround geom feetPosition capsule probeDistance = none ↔
      (traceCapsule geom feetPosition (feetPosition.addScaled DOWNv probeDistance)
        capsule).hit = false) ∧
    (∀ p, queryGround geom feetPosition capsule probeDistance = some p →
      p.slopeAngleDeg = radToDeg (Real.arccos (clampR (p.normal.dot UPv) (-1) 1)) ∧
      0 ≤ p.slopeAngleDeg ∧ p.slopeAngleDeg ≤ 180) := by
  simp only [queryGround]
  by_cases h : (traceCapsule geom feetPosition (feetPosition.addScaled DOWNv probeDistance)
      capsule).hit = false
  · rw [if_pos h]
    exact ⟨by simp [h], by intro p hp; exact absurd hp (by simp)⟩
  · rw [if_neg h]
    refine ⟨by simp [h], ?_⟩
    intro p hp
    rw [Option.some_inj] at hp
    subst hp
    exact ⟨rfl, radToDeg_arccos_nonneg _, radToDeg_arccos_le _⟩

/-- A triangle capability whose closest-point query always reports contact at
the segment start (distance zero); used to exercise the colliding paths of
the collision world on concrete inputs. -/
def touchTri : TriCapability :=
  { closest := fun seg => { dist := 0, triPoint := seg.sp, capsulePoint := seg.sp },
    faceNormal := ⟨0, 1, 0⟩ }

lemma normalize_up : Vec3.normalize ⟨0, 1, 0⟩ = ⟨0, 1, 0⟩ := by
  unfold Vec3.normalize Vec3.length Vec3.lengthSq
  norm_num

lemma normalize_up3 : Vec3.normalize ⟨0, 3, 0⟩ = ⟨0, 1, 0⟩ := by
  unfold Vec3.normalize Vec3.length Vec3.lengthSq
  rw [show ((0:ℝ) * 0 + 3 * 3 + 0 * 0) = 3 ^ 2 by norm_num, Real.sqrt_sq (by norm_num)]
  norm_num [Vec3.smul]

/-- Witness for C8: with an always-touching triangle and probe distance 0,
`queryGround` returns a probe, and the theorem applies to it. -/
theorem queryGround_spec_witness :
    queryGround (some [touchTri]) ⟨0, 0, 0⟩ ⟨2, 1⟩ 0 =
      some { distance := 0, position := ⟨0, 3.0015, 0⟩, normal := ⟨0, 1, 0⟩,
             slopeAngleDeg := 0 } ∧
    (0:ℝ) ≤ (GroundProbe.mk 0 ⟨0, 3.0015, 0⟩ ⟨0, 1, 0⟩ 0).slopeAngleDeg ∧
    (GroundProbe.mk 0 ⟨0, 3.0015, 0⟩ ⟨0, 1, 0⟩ 0).slopeAngleDeg ≤ 180 := by
  have heval : queryGround (some [touchTri]) ⟨0, 0, 0⟩ ⟨2, 1⟩ 0 =
      some { distance := 0, position := ⟨0, 3.0015, 0⟩, normal := ⟨0, 1, 0⟩,
             slopeAngleDeg := 0 } := by
    have hover : computeOverlap (some [touchTri]) ⟨0, 0, 0⟩ ⟨2, 1⟩ true =
        { collided := true, normal := ⟨0, 1, 0⟩, depth := 1, position := ⟨0, 3.0015, 0⟩ } := by
      simp only [computeOverlap, initOverlapAcc]
      rw [show (3 : ℕ) = 2 + 1 from rfl]
      simp only [overlapIterLoop, List.foldl, overlapTriStep, touchTri, SKIN_WIDTH]
      norm_num [Vec3.lengthSq, Vec3.addScaled, Vec3.sub_def, Vec3.smul_def, Vec3.add_def,
        Vec3.zero, normalize_up, UPv]
      exact normalize_up3
    have htrace : traceCapsule (some [touchTri]) ⟨0, 0, 0⟩
        ((⟨0, 0, 0⟩ : Vec3).addScaled DOWNv 0) ⟨2, 1⟩ =
        { hit := true, fraction := 0, normal := ⟨0, 1, 0⟩, position := ⟨0, 3.0015, 0⟩ } := by
      simp only [traceCapsule, hover]
      norm_num [Vec3.addScaled, Vec3.smul_def, Vec3.add_def, Vec3.sub_def, Vec3.lengthSq, DOWNv]
    simp only [queryGround, htrace]
    norm_num [clampR, Vec3.dot, UPv, Real.arccos_one, radToDeg]
  have hspec := (queryGround_spec (some [touchTri]) ⟨0, 0, 0⟩ ⟨2, 1⟩ 0).2 _ heval
  exact ⟨heval, hspec.2.1, hspec.2.2⟩

lemma overlapTriStep_skip {radius : ℝ} {resolve : Bool} {acc : OverlapAcc}
    {tri : TriCapability} (h : radius ≤ (tri.closest acc.seg).dist) :
    overlapTriStep radius resolve acc tri = acc := by
  simp only [overlapTriStep]
  rw [if_pos h]

lemma overlapTriStep_keeps_collided {radius : ℝ} {resolve : Bool} {acc : OverlapAcc}
    {tri : TriCapability} (h : acc.collided = true) :
    (overlapTriStep radius resolve acc tri).collided = true := by
  by_cases hd : radius ≤ (tri.closest acc.seg).dist
  · rw [overlapTriStep_skip hd]; exact h
  · simp only [overlapTriStep]
    rw [if_neg hd]

lemma foldl_overlap_keeps_collided (tris : List TriCapability) (radius : ℝ)
    (resolve : Bool) (acc : OverlapAcc) (h : acc.collided = true) :
    (tris.foldl (overlapTriStep radius resolve) acc).collided = true := by
  induction tris generalizing acc with
  | nil => exact h
  | cons t ts ih => exact ih _ (overlapTriStep_keeps_collided h)

/-- If one shapecast pass over the triangles reports no collision, then the
pass (with either value of the `resolve` flag) left the accumulator
untouched: every triangle was at distance at least the capsule radius from
the (unchanged) working segment. -/
lemma foldl_overlap_clean (tris : List TriCapability) (radius : ℝ) (res1 : Bool)
    (acc : OverlapAcc)
    (h : (tris.foldl (overlapTriStep radius res1) acc).collided = false) :
    ∀ res2 : Bool, tris.foldl (overlapTriStep radius res2) acc = acc := by
  induction tris generalizing acc with
  | nil => intro _; rfl
  | cons t ts ih =>
    intro res2
    by_cases hd : radius ≤ (t.closest acc.seg).dist
    · rw [List.foldl_cons, overlapTriStep_skip hd]
      exact ih acc (by rwa [List.foldl_cons, overlapTriStep_skip hd] at h) res2
    · exfalso
      have hstep : (overlapTriStep radius res1 acc t).collided = true := by
        simp only [overlapTriStep]
        rw [if_neg hd]
      have htrue := foldl_overlap_keeps_collided ts radius res1 _ hstep
      rw [List.foldl_cons, htrue] at h
      exact Bool.noConfusion h

lemma initOverlapAcc_reset (p : Vec3) (c : CapsuleShape) :
    { initOverlapAcc p c with iterCollided := false } = initOverlapAcc p c := rfl

/-- If the stationary (non-resolving) overlap test at `p` is clean, then
`computeOverlap` at `p` — with either value of `resolve` — reports no
collision, the world-up normal, zero depth and the unmoved position. -/
lemma computeOverlap_clean (geom : WorldGeometry) (p : Vec3) (caps : CapsuleShape)
    (h : (computeOverlap geom p caps false).collided = false) (res : Bool) :
    computeOverlap geom p caps res =
      { collided := false, normal := ⟨0, 1, 0⟩, depth := 0, position := p } := by
  cases geom with
  | none => simp [computeOverlap]
  | some tris =>
    have hone : ∀ (r : Bool) (acc : OverlapAcc), overlapIterLoop tris caps.radius r 1 acc =
        tris.foldl (overlapTriStep caps.radius r) { acc with iterCollided := false } := by
      intro r acc
      show (if (tris.foldl (overlapTriStep caps.radius r)
              { acc with iterCollided := false }).iterCollided
            then overlapIterLoop tris caps.radius r 0
              (tris.foldl (overlapTriStep caps.radius r) { acc with iterCollided := false })
            else tris.foldl (overlapTriStep caps.radius r)
              { acc with iterCollided := false }) = _
      split <;> rfl
    have hcol : (computeOverlap (some tris) p caps false).collided =
        (tris.foldl (overlapTriStep caps.radius false) (initOverlapAcc p caps)).collided := by
      show (overlapIterLoop tris caps.radius false 1 (initOverlapAcc p caps)).collided = _
      rw [hone false, initOverlapAcc_reset]
    rw [hcol] at h
    have hfix := foldl_overlap_clean tris caps.radius false (initOverlapAcc p caps) h
    have hloop : ∀ (r : Bool) (n : ℕ), overlapIterLoop tris caps.radius r (n + 1)
        (initOverlapAcc p caps) = initOverlapAcc p caps := by
      intro r n
      simp only [overlapIterLoop, initOverlapAcc_reset, hfix r]
      rfl
    have hloopF : overlapIterLoop tris caps.radius false 1 (initOverlapAcc p caps) =
        initOverlapAcc p caps := hloop false 0
    have hloopT : overlapIterLoop tris caps.radius true 3 (initOverlapAcc p caps) =
        initOverlapAcc p caps := hloop true 2
    have hfeet : (initOverlapAcc p caps).seg.sp.addScaled UPv (-caps.radius) = p := by
      simp only [initOverlapAcc, Vec3.addScaled, UPv, Vec3.smul_def, Vec3.add_def]
      ext <;> dsimp <;> ring
    have hpush : ¬ ((1e-10 : ℝ) < (initOverlapAcc p caps).accumulatedPush.lengthSq) := by
      simp only [initOverlapAcc]
      norm_num [Vec3.zero, Vec3.lengthSq]
    cases res with
    | false =>
      simp only [computeOverlap, Bool.false_eq_true, if_false, hloopF]
      rw [if_neg hpush]
      simp only [OverlapResult.mk.injEq]
      exact ⟨rfl, rfl, rfl, hfeet⟩
    | true =>
      simp only [computeOverlap, if_true, hloopT]
      rw [if_neg hpush]
      simp only [OverlapResult.mk.injEq]
      exact ⟨rfl, rfl, rfl, hfeet⟩

lemma lerpV_one (a b : Vec3) : lerpV a b 1 = b := by
  unfold lerpV
  ext <;> dsimp <;> ring

/-- **C4.** For any start, end and capsule whose swept delta is not
degenerate, if none of the 12 coarse linear samples along the
penetration-corrected swept path collides, `traceCapsule` returns
`hit = false`, `fraction = 1` and the fully-resolved end position. -/
theorem traceCapsule_clear_path (geom : WorldGeometry) (startFeet endFeet : Vec3)
    (capsule : CapsuleShape)
    (hδ : ¬ ((endFeet - startFeet).lengthSq < 1e-12))
    (hclean : ∀ k : ℕ, k < 12 →
      (computeOverlap geom
        (lerpV (resolveCapsulePosition geom startFeet capsule).position
          ((resolveCapsulePosition geom startFeet capsule).position + (endFeet - startFeet))
          (((k : ℝ) + 1) / 12)) capsule false).collided = false) :
    (traceCapsule geom startFeet endFeet capsule).hit = false ∧
    (traceCapsule geom startFeet endFeet capsule).fraction = 1 ∧
    (traceCapsule geom startFeet endFeet capsule).position =
      (resolveCapsulePosition geom
        ((resolveCapsulePosition geom startFeet capsule).position + (endFeet - startFeet))
        capsule).position := by
  cases geom with
  | none =>
    refine ⟨rfl, rfl, ?_⟩
    show endFeet = (resolveCapsulePosition none _ capsule).position
    simp only [resolveCapsulePosition, computeOverlap]
    ext <;> dsimp <;> ring
  | some tris =>
    simp only [resolveCapsulePosition] at hclean ⊢
    set cs := (computeOverlap (some tris) startFeet capsule true).position with hcs
    set ce := cs + (endFeet - startFeet) with hce
    have hnone : coarseFirstHit (some tris) capsule cs ce = none := by
      apply List.findSome?_eq_none_iff.mpr
      intro k hk
      rw [List.mem_range] at hk
      simp [hclean k hk]
    have hendclean : (computeOverlap (some tris) ce capsule false).collided = false := by
      have h11 := hclean 11 (by norm_num)
      rw [show (((11 : ℕ) : ℝ) + 1) / 12 = (1 : ℝ) by norm_num, lerpV_one] at h11
      exact h11
    have hres := computeOverlap_clean (some tris) ce capsule hendclean true
    simp only [traceCapsule]
    rw [if_neg hδ]
    simp only [hnone]
    refine ⟨?_, trivial, trivial⟩
    show (computeOverlap (some tris) ce capsule true).collided = false
    rw [hres]

/-- A triangle capability that is always far from the capsule; no sample ever
collides against it. -/
def farTri : TriCapability :=
  { closest := fun _ => { dist := 100, triPoint := Vec3.zero, capsulePoint := Vec3.zero },
    faceNormal := ⟨0, 1, 0⟩ }

/-- Witness for C4: a unit sweep through a world with one distant triangle. -/
theorem traceCapsule_clear_path_witness :
    (traceCapsule (some [farTri]) ⟨0, 0, 0⟩ ⟨1, 0, 0⟩ ⟨2, 1⟩).hit = false ∧
    (traceCapsule (some [farTri]) ⟨0, 0, 0⟩ ⟨1, 0, 0⟩ ⟨2, 1⟩).fraction = 1 ∧
    (traceCapsule (some [farTri]) ⟨0, 0, 0⟩ ⟨1, 0, 0⟩ ⟨2, 1⟩).position =
      (resolveCapsulePosition (some [farTri])
        ((resolveCapsulePosition (some [farTri]) ⟨0, 0, 0⟩ ⟨2, 1⟩).position +
          ((⟨1, 0, 0⟩ : Vec3) - ⟨0, 0, 0⟩)) ⟨2, 1⟩).position := by
  have hfar : ∀ p : Vec3, (computeOverlap (some [farTri]) p ⟨2, 1⟩ false).collided = false := by
    intro p
    have hstep : overlapTriStep ((⟨2, 1⟩ : CapsuleShape).radius) false
        (initOverlapAcc p ⟨2, 1⟩) farTri = initOverlapAcc p ⟨2, 1⟩ :=
      overlapTriStep_skip (by norm_num [farTri])
    simp only [computeOverlap, Bool.false_eq_true, if_false,
      show (1 : ℕ) = 0 + 1 from rfl, overlapIterLoop, initOverlapAcc_reset,
      List.foldl, hstep]
    rfl
  exact traceCapsule_clear_path (some [farTri]) ⟨0, 0, 0⟩ ⟨1, 0, 0⟩ ⟨2, 1⟩
    (by norm_num [Vec3.lengthSq]) (fun k _ => hfar _)

/-! ## MovementController (`src/movement/MovementController.ts`) -/

/-- The tunable configuration set (`SourceCvars`). -/
structure SourceCvars where
  sv_gravity : ℝ
  sv_accelerate : ℝ
  sv_airaccelerate : ℝ
  sv_friction : ℝ
  sv_stopspeed : ℝ
  sv_maxspeed : ℝ
  sv_jump_impulse : ℝ
  sv_bhop_enabled : Bool
  sv_autobhop_enabled : Bool
  surf_min_angle_deg : ℝ
  surf_max_angle_deg : ℝ
  surf_friction : ℝ
  sv_surf_edge_clip_passthrough : ℝ
  overbounce : ℝ

/-- `defaultCvars` from `cvars.ts`.  The edge-clip passthrough factor is not
assigned there (the controller guards the read with `max(0.1, ·)`); it is
modelled as 0, a value below that floor. -/
def defaultCvars : SourceCvars :=
  { sv_gravity := 19.0, sv_accelerate := 13.0, sv_airaccelerate := 120.0,
    sv_friction := 5.2, sv_stopspeed := 2.4, sv_maxspeed := 9.5,
    sv_jump_impulse := 5.4, sv_bhop_enabled := true, sv_autobhop_enabled := false,
    surf_min_angle_deg := 40, surf_max_angle_deg := 82, surf_friction := 0.0,
    sv_surf_edge_clip_passthrough := 0, overbounce := 1.001 }

inductive MovementMode
  | ground
  | air
  | surf
deriving DecidableEq

structure MoveInput where
  forwardMove : ℝ
  sideMove : ℝ
  jumpPressed : Bool
  jumpHeld : Bool

/-- The collision adapter contract consumed by the controller. -/
structure CollisionAdapter where
  queryGround : Vec3 → CapsuleShape → ℝ → Option GroundProbe
  traceCapsule : Vec3 → Vec3 → CapsuleShape → TraceResult
  resolveCapsulePosition : Vec3 → CapsuleShape → OverlapResult

/-- The `CollisionWorld` implementation of the adapter contract. -/
def worldAdapter (geom : WorldGeometry) : CollisionAdapter :=
  { queryGround := queryGround geom,
    traceCapsule := traceCapsule geom,
    resolveCapsulePosition := resolveCapsulePosition geom }

def WALKABLE_EPS : ℝ := 0.5

def WALKABLE_MAX_ANGLE_DEG : ℝ := 40

def GROUND_PROBE_DIST : ℝ := 0.18

def SURF_PROBE_DIST : ℝ := 0.55

def GROUND_SNAP_DIST : ℝ := 0.08

def MAX_BUMPS : ℕ := 4

def MAX_PLANES : ℕ := 4

def PLANE_SIMILARITY_EPS : ℝ := 0.99

def SURF_CONTACT_GRACE_TICKS : ℝ := 20

def SURF_EDGE_GROUND_OVERRIDE_MIN_ANGLE_DEG : ℝ := 1

def SURF_EDGE_OVERRIDE_MIN_SPEED : ℝ := 1.2

def SURF_EDGE_LAUNCH_MIN_SPEED : ℝ := 5

/-- The controller's read-only capsule shape. -/
def controllerCapsule : CapsuleShape := { height := 1.76, radius := 0.34 }

/-- `p` satisfies `f` on the value of an optional, `false` on `null`
(JS truthiness guard plus the field test). -/
def optPred {α : Type} (o : Option α) (f : α → Prop) : Prop :=
  match o with
  | none => False
  | some a => f a

instance {α : Type} (o : Option α) (f : α → Prop) [∀ a, Decidable (f a)] :
    Decidable (optPred o f) :=
  match o with
  | none => isFalse fun h => h
  | some a => decidable_of_iff (f a) Iff.rfl

/-- `getWalkableAngleDeg()`. -/
def getWalkableAngleDeg (cv : SourceCvars) : ℝ :=
  min WALKABLE_MAX_ANGLE_DEG (cv.surf_min_angle_deg - WALKABLE_EPS)

/-- The per-probe part of `isWalkable`. -/
def isWalkableProbe (cv : SourceCvars) (p : GroundProbe) : Prop :=
  p.distance ≤ GROUND_PROBE_DIST ∧ p.slopeAngleDeg ≤ getWalkableAngleDeg cv

instance (cv : SourceCvars) (p : GroundProbe) : Decidable (isWalkableProbe cv p) := by
  unfold isWalkableProbe
  infer_instance

/-- `isWalkable(groundProbe)`. -/
def isWalkable (cv : SourceCvars) (probe : Option GroundProbe) : Prop :=
  optPred probe (isWalkableProbe cv)

instance (cv : SourceCvars) (probe : Option GroundProbe) : Decidable (isWalkable cv probe) := by
  unfold isWalkable
  infer_instance

/-- The per-probe part of `isSurfSlope`. -/
def isSurfSlopeProbe (cv : SourceCvars) (p : GroundProbe) : Prop :=
  p.distance ≤ GROUND_PROBE_DIST ∧ getWalkableAngleDeg cv < p.slopeAngleDeg ∧
    cv.surf_min_angle_deg ≤ p.slopeAngleDeg ∧ p.slopeAngleDeg ≤ cv.surf_max_angle_deg

instance (cv : SourceCvars) (p : GroundProbe) : Decidable (isSurfSlopeProbe cv p) := by
  unfold isSurfSlopeProbe
  infer_instance

/-- `isSurfSlope(groundProbe)`. -/
def isSurfSlope (cv : SourceCvars) (probe : Option GroundProbe) : Prop :=
  optPred probe (isSurfSlopeProbe cv)

instance (cv : SourceCvars) (probe : Option GroundProbe) : Decidable (isSurfSlope cv probe) := by
  unfold isSurfSlope
  infer_instance

/-- `pickMode(groundProbe)`. -/
def pickMode (cv : SourceCvars) (probe : Option GroundProbe) : MovementMode :=
  if isWalkable cv probe then MovementMode.ground
  else if isSurfSlope cv probe then MovementMode.surf
  else MovementMode.air

/-- `upwardNormal(normal)`. -/
def upwardNormal (normal : Vec3) : Vec3 :=
  let n := normal.normalize
  if n.y < 0 then -n else n

/-- `getSurfNormalFromProbe(groundProbe)`. -/
def getSurfNormalFromProbe (cv : SourceCvars) (probe : Option GroundProbe) : Option Vec3 :=
  match probe with
  | none => none
  | some p =>
    let normal := upwardNormal p.normal
    if SURF_PROBE_DIST < p.distance ∨ p.slopeAngleDeg ≤ getWalkableAngleDeg cv ∨
        p.slopeAngleDeg < cv.surf_min_angle_deg ∨ cv.surf_max_angle_deg < p.slopeAngleDeg
    then none else some normal

/-- `getSurfNormalFromNormal(normal)`. -/
def getSurfNormalFromNormal (cv : SourceCvars) (normal : Option Vec3) : Option Vec3 :=
  match normal with
  | none => none
  | some v =>
    let normalized := upwardNormal v
    let angle := radToDeg (Real.arccos (clampR (normalized.dot UPv) (-1) 1))
    if angle ≤ getWalkableAngleDeg cv ∨ angle < cv.surf_min_angle_deg ∨
        cv.surf_max_angle_deg < angle
    then none else some normalized

/-- `removeIntoRamp(normal)` applied to a velocity. -/
def removeIntoRamp (vel normal : Vec3) : Vec3 :=
  let into := vel.dot normal
  if into < 0 then vel.addScaled normal (-into) else vel

/-- `recoverSurfEdgeSpeed(previousVelocity, surfNormal, speedBeforeCollision)`
applied to the current velocity. -/
def recoverSurfEdgeSpeed (cv : SourceCvars) (vel previousVelocity surfNormal : Vec3)
    (speedBeforeCollision : ℝ) : Vec3 :=
  let currentSpeed := vel.length
  if speedBeforeCollision ≤ 1e-4 ∨ speedBeforeCollision * 0.6 ≤ currentSpeed then vel
  else
    let rescued0 := clipVelocity previousVelocity surfNormal cv.overbounce
    let into := rescued0.dot surfNormal
    let rescued := if into < 0 then rescued0.addScaled surfNormal (-into) else rescued0
    let rescuedSpeed := rescued.length
    if rescuedSpeed ≤ currentSpeed + 0.05 then vel
    else
      let cappedSpeed := min rescuedSpeed (speedBeforeCollision * 0.97)
      if cappedSpeed ≤ 1e-4 then vel
      else rescued.setLength cappedSpeed

/-- `accelerateGround(wishDir, wishSpeed, dt)` applied to a velocity. -/
def accelerateGround (cv : SourceCvars) (vel wishDir : Vec3) (wishSpeed dt : ℝ) : Vec3 :=
  if wishSpeed ≤ 0 ∨ wishDir.lengthSq ≤ 0 then vel
  else clampHorizontalSpeed (accelerate vel wishDir wishSpeed cv.sv_accelerate dt 1)
    cv.sv_maxspeed

/-- The `'ground'` case of the tick's mode-specific velocity update: ground
friction (when no jump was requested), then ground acceleration with
horizontal clamping, then zeroing of downward vertical velocity. -/
def groundMove (cv : SourceCvars) (vel wishDir : Vec3) (wishSpeed dt : ℝ)
    (jumpRequested : Bool) : Vec3 :=
  let v1 := if jumpRequested then vel
    else applyFriction vel dt cv.sv_friction cv.sv_stopspeed
  let v2 := accelerateGround cv v1 wishDir wishSpeed dt
  if v2.y < 0 then v2.setY 0 else v2

/-- The `'surf'` case of the tick's mode-specific velocity update. -/
def surfMove (cv : SourceCvars) (vel : Vec3) (activeSurfNormal : Option Vec3)
    (wishDir : Vec3) (wishSpeed dt : ℝ) : Vec3 :=
  match activeSurfNormal with
  | none => vel
  | some n0 =>
    let rampNormal := n0.normalize
    let v1 := removeIntoRamp (clipVelocity vel rampNormal cv.overbounce) rampNormal
    let surfWish := projectDirectionOnPlane wishDir rampNormal
    let v2 := if 0 < surfWish.lengthSq
      then accelerate v1 surfWish wishSpeed cv.sv_airaccelerate dt 1 else v1
    let v3 := removeIntoRamp v2 rampNormal
    if 0 < cv.surf_friction then (max 0 (1 - cv.surf_friction * dt)) • v3 else v3

/-- The `'air'` case of the tick's mode-specific velocity update. -/
def airMove (cv : SourceCvars) (vel wishDir : Vec3) (wishSpeed dt : ℝ) : Vec3 :=
  if 0 < wishDir.lengthSq
  then accelerate vel wishDir wishSpeed cv.sv_airaccelerate dt 1 else vel

/-- `computeWish(input)`: wish direction and wish speed from yaw and input. -/
def computeWish (cv : SourceCvars) (yawRad : ℝ) (input : MoveInput) : Vec3 × ℝ :=
  let forward : Vec3 := ⟨-Real.sin yawRad, 0, -Real.cos yawRad⟩
  let right : Vec3 := ⟨Real.cos yawRad, 0, -Real.sin yawRad⟩
  let wishVel := (Vec3.zero.addScaled forward input.forwardMove).addScaled right input.sideMove
  let len := wishVel.length
  if len ≤ 1e-6 then (Vec3.zero, 0)
  else ((1 / len) • wishVel, min cv.sv_maxspeed (len * cv.sv_maxspeed))

/-- Mutable loop state of `slideMove`. -/
structure BumpState where
  position : Vec3
  velocity : Vec3
  planes : List Vec3
  remainingTime : ℝ
  lastCollisionNormal : Option Vec3
  surfCollisionNormal : Option Vec3

/-- `isIntoAnyPlane(velocity, planes)`. -/
def isIntoAnyPlane (velocity : Vec3) (planes : List Vec3) : Prop :=
  ∃ plane ∈ planes, velocity.dot plane < -1e-6

instance (velocity : Vec3) (planes : List Vec3) : Decidable (isIntoAnyPlane velocity planes) := by
  unfold isIntoAnyPlane
  infer_instance

/-- Ordered pairs `(i, j)` with `i < j` of a list, in the row-major order the
source's nested crease loops visit them. -/
def listPairs {α : Type} : List α → List (α × α)
  | [] => []
  | x :: xs => xs.map (fun y => (x, y)) ++ listPairs xs

/-- The crease search of `slideMove`: the best (fastest, not-into-any-plane)
velocity along a crease direction of two accumulated planes, if any. -/
def bestCrease (planes : List Vec3) (originalVelocity : Vec3) : Option Vec3 :=
  ((listPairs planes).foldl
    (fun best pq =>
      let creaseDir := pq.1.cross pq.2
      if creaseDir.lengthSq ≤ 1e-10 then best
      else
        let cd := creaseDir.normalize
        let creaseSpeed := originalVelocity.dot cd
        let candidate := creaseSpeed • cd
        if isIntoAnyPlane candidate planes then best
        else if best.2 < candidate.lengthSq then (some candidate, candidate.lengthSq)
        else best)
    ((none : Option Vec3), (0 : ℝ))).1

/-- The loop-top break test of the bump loop. -/
def bumpCheck (st : BumpState) : Prop :=
  st.velocity.lengthSq < 1e-10 ∨ st.remainingTime ≤ 1e-6

instance (st : BumpState) : Decidable (bumpCheck st) := by
  unfold bumpCheck
  infer_instance

/-- Whether a bump-loop iteration `break`s or `continue`s. -/
inductive BumpOutcome
  | halt (st : BumpState)
  | next (st : BumpState)

/-- One iteration of the bump loop of `slideMove` (after the loop-top break
test): trace the remaining motion, and on a hit run the ramp-clip /
edge-passthrough / plane-accumulation logic. -/
def bumpBody (world : CollisionAdapter) (cv : SourceCvars) (graceTicks : ℝ)
    (surfContactNormal : Vec3) (dt : ℝ) (surfingTick : Bool) (surfNormal : Option Vec3)
    (st : BumpState) : BumpOutcome :=
  let endPos := st.position.addScaled st.velocity st.remainingTime
  let trace := world.traceCapsule st.position endPos controllerCapsule
  let st1 : BumpState := { st with position := trace.position }
  if trace.hit = false then BumpOutcome.halt st1
  else
    let hn0 := trace.normal.normalize
    let hitNormal := if 0 < hn0.dot st1.velocity then -hn0 else hn0
    let st2 : BumpState := { st1 with lastCollisionNormal := some hitNormal }
    let collisionSurfNormal := getSurfNormalFromNormal cv (some hitNormal)
    let st3 : BumpState :=
      match collisionSurfNormal, st2.surfCollisionNormal with
      | some csn, none => { st2 with surfCollisionNormal := some csn }
      | some csn, some prev =>
        if csn.y < prev.y then { st2 with surfCollisionNormal := some csn } else st2
      | none, _ => st2
    let surfGraceEdgeCollision :=
      collisionSurfNormal.isNone = true ∧ 0 < graceTicks ∧ |hitNormal.y| < 0.28 ∧
        st3.velocity.dot hitNormal < -0.02 ∧
        SURF_EDGE_OVERRIDE_MIN_SPEED < horizontalLength st3.velocity
    let ignoreRampCap :=
      surfGraceEdgeCollision ∧ |hitNormal.dot surfContactNormal| < 0.45 ∧
        st3.velocity.y ≤ 0.5 ∧ 0.45 < trace.fraction
    if ignoreRampCap then
      let edgeClipAssist := max 0.1 cv.sv_surf_edge_clip_passthrough
      let passthrough := max (controllerCapsule.radius * (1 + edgeClipAssist))
        (horizontalLength st3.velocity * dt * edgeClipAssist)
      BumpOutcome.halt { st3 with
        position := endPos.addScaled st3.velocity.normalize passthrough,
        remainingTime := 0 }
    else if surfingTick = true ∨ collisionSurfNormal.isSome = true ∨ surfGraceEdgeCollision then
      let baseNormal :=
        match surfNormal with
        | some v => v
        | none =>
          match collisionSurfNormal with
          | some v => v
          | none => if surfGraceEdgeCollision then surfContactNormal else hitNormal
      let normal := baseNormal.normalize
      let v1 := removeIntoRamp (clipVelocity st3.velocity normal cv.overbounce) normal
      let v2 := if surfGraceEdgeCollision then
          let v2a := clipVelocity v1 hitNormal cv.overbounce
          let intoWall := v2a.dot hitNormal
          if intoWall < 0 then v2a.addScaled hitNormal (-intoWall) else v2a
        else v1
      let st4 : BumpState := { st3 with velocity := v2 }
      let fraction := clampR trace.fraction 0 1
      if fraction ≤ 1e-5 then
        let st5 := if 1e-8 < st4.velocity.lengthSq then
            { st4 with position :=
                st4.position.addScaled st4.velocity (min st4.remainingTime dt * 0.25) }
          else st4
        BumpOutcome.next { st5 with remainingTime := st5.remainingTime * 0.5 }
      else
        BumpOutcome.next { st4 with remainingTime := st4.remainingTime * (1 - fraction) }
    else
      let planes := if ∃ q ∈ st3.planes, PLANE_SIMILARITY_EPS < q.dot hitNormal
        then st3.planes else st3.planes ++ [hitNormal]
      let st4 : BumpState := { st3 with planes := planes }
      if MAX_PLANES < planes.length then BumpOutcome.halt st4
      else
        let originalVelocity := st4.velocity
        let c1 := clipVelocity st4.velocity hitNormal cv.overbounce
        let c2 := planes.foldl
          (fun cvel plane =>
            if cvel.dot plane < 0 then clipVelocity cvel plane cv.overbounce else cvel) c1
        let c3 := if 2 ≤ planes.length ∧ isIntoAnyPlane c2 planes then
            match bestCrease planes originalVelocity with
            | some bc => bc
            | none => c2
          else c2
        let c4 := if c3.lengthSq ≤ 1e-10 then
            let fallback := clipVelocity originalVelocity hitNormal cv.overbounce
            if c3.lengthSq < fallback.lengthSq then fallback else c3
          else c3
        let st5 : BumpState := { st4 with velocity := c4 }
        let fraction := clampR trace.fraction 0 1
        if fraction ≤ 1e-5 then
          let st6 := if 1e-8 < st5.velocity.lengthSq then
              { st5 with position :=
                  st5.position.addScaled st5.velocity (min st5.remainingTime dt * 0.125) }
            else st5
          BumpOutcome.next { st6 with remainingTime := st6.remainingTime * 0.5 }
        else
          BumpOutcome.next { st5 with remainingTime := st5.remainingTime * (1 - fraction) }

/-- The bump loop: up to `MAX_BUMPS` iterations, each guarded by the loop-top
break test. -/
def bumpLoop (world : CollisionAdapter) (cv : SourceCvars) (graceTicks : ℝ)
    (surfContactNormal : Vec3) (dt : ℝ) (surfingTick : Bool) (surfNormal : Option Vec3) :
    Nat → BumpState → BumpState
  | 0, st => st
  | n + 1, st =>
    if bumpCheck st then st
    else
      match bumpBody world cv graceTicks surfContactNormal dt surfingTick surfNormal st with
      | BumpOutcome.halt s => s
      | BumpOutcome.next s =>
        bumpLoop world cv graceTicks surfContactNormal dt surfingTick surfNormal n s

structure SlideResult where
  position : Vec3
  velocity : Vec3
  lastCollisionNormal : Option Vec3
  surfCollisionNormal : Option Vec3

/-- `slideMove(world, dt, surfingTick, surfNormal)`. -/
def slideMove (world : CollisionAdapter) (cv : SourceCvars) (graceTicks : ℝ)
    (surfContactNormal : Vec3) (position velocity : Vec3) (dt : ℝ)
    (surfingTick : Bool) (surfNormal : Option Vec3) : SlideResult :=
  let st0 : BumpState :=
    { position := position, velocity := velocity, planes := [], remainingTime := dt,
      lastCollisionNormal := none, surfCollisionNormal := none }
  let st := bumpLoop world cv graceTicks surfContactNormal dt surfingTick surfNormal
    MAX_BUMPS st0
  let resolved := world.resolveCapsulePosition st.position controllerCapsule
  let lastN := if resolved.collided = true then some resolved.normal
    else st.lastCollisionNormal
  let vel := if surfingTick = true then
      let normal := surfNormal.getD resolved.normal
      removeIntoRamp (clipVelocity st.velocity normal cv.overbounce) normal
    else st.velocity
  { position := resolved.position, velocity := vel,
    lastCollisionNormal := lastN, surfCollisionNormal := st.surfCollisionNormal }

/-- Step 7 of `tick` (post-collision surf reclassification): the block that
updates velocity, the surf-contact memory and the grace counter once the
tick's surf-normal candidate has been determined, including the final
wall-slide clause that holds the counter at a minimum of 2.  Returns
`(velocity, memory, graceTicks)`.  `postCollisionMain` is the branch on the
found surf normal (the drop-warn test `0.2 < speedBefore ∧ ...` is the
`collisionDropWarn` local of the source); `postCollisionSurfUpdate` appends
the final wall-slide raise clause. -/
def postCollisionMain (cv : SourceCvars) (surfNormal lastCollisionNormal : Option Vec3)
    (memory : Vec3) (graceTicks : ℝ) (vel preSlideVelocity : Vec3)
    (speedBefore : ℝ) : Vec3 × Vec3 × ℝ :=
  match surfNormal with
  | some n =>
    let v1 := removeIntoRamp (clipVelocity vel n cv.overbounce) n
    (recoverSurfEdgeSpeed cv v1 preSlideVelocity n speedBefore, n, SURF_CONTACT_GRACE_TICKS)
  | none =>
    if 0 < graceTicks ∧ (0.2 < speedBefore ∧ vel.length < speedBefore * 0.5) ∧
        optPred lastCollisionNormal (fun m => |m.y| < 0.35) then
      (recoverSurfEdgeSpeed cv vel preSlideVelocity memory speedBefore, memory,
        max 0 (graceTicks - 1))
    else if 0 < graceTicks then
      if optPred lastCollisionNormal (fun m => |m.y| < 0.25) ∧
          SURF_EDGE_OVERRIDE_MIN_SPEED < horizontalLength vel then
        (vel, memory, graceTicks)
      else (vel, memory, graceTicks - 1)
    else (vel, memory, graceTicks)

def postCollisionSurfUpdate (cv : SourceCvars) (surfNormal lastCollisionNormal : Option Vec3)
    (memory : Vec3) (graceTicks : ℝ) (vel preSlideVelocity : Vec3)
    (speedBefore : ℝ) : Vec3 × Vec3 × ℝ :=
  let main := postCollisionMain cv surfNormal lastCollisionNormal memory graceTicks vel
    preSlideVelocity speedBefore
  let g1 := if optPred lastCollisionNormal (fun m => |m.y| < 0.25) ∧
      SURF_EDGE_OVERRIDE_MIN_SPEED < horizontalLength main.1 then
    max main.2.2 2 else main.2.2
  (main.1, main.2.1, g1)

/-- The controller's persistent kinematic state. -/
structure ControllerState where
  cvars : SourceCvars
  position : Vec3
  velocity : Vec3
  surfContactNormal : Vec3
  surfContactGraceTicks : ℝ
  yawRad : ℝ
  pitchRad : ℝ

/-- `MathUtils.degToRad`. -/
def degToRad (d : ℝ) : ℝ := d * (Real.pi / 180)

/-- The controller's field initializers. -/
def initialState : ControllerState :=
  { cvars := defaultCvars, position := ⟨0, 4, 0⟩, velocity := Vec3.zero,
    surfContactNormal := ⟨0, 1, 0⟩, surfContactGraceTicks := 0, yawRad := 0, pitchRad := 0 }

/-- `reset(position, yawDeg)`. -/
def resetController (st : ControllerState) (position : Vec3) (yawDeg : ℝ) :
    ControllerState :=
  { st with
    position := position, velocity := Vec3.zero, surfContactGraceTicks := 0,
    surfContactNormal := ⟨0, 1, 0⟩, yawRad := degToRad yawDeg, pitchRad := 0 }

/-- `tick(dt, input, world)`: one complete simulation step.  The final mode
recomputation and the debug-state publication read the state but do not
change the persisted kinematic fields, so they are not part of the returned
state. -/
def tick (st : ControllerState) (dt : ℝ) (input : MoveInput) (world : CollisionAdapter) :
    ControllerState :=
  let cv := st.cvars
  let wish := computeWish cv st.yawRad input
  let groundProbe := world.queryGround st.position controllerCapsule GROUND_PROBE_DIST
  let mode0 := pickMode cv groundProbe
  let asn0 := getSurfNormalFromProbe cv groundProbe
  let walkableAngle := getWalkableAngleDeg cv
  let hasWalkableProbe := optPred groundProbe (fun p => p.slopeAngleDeg ≤ walkableAngle)
  let pair1 : MovementMode × Option Vec3 :=
    if asn0.isNone = true ∧ 0 < st.surfContactGraceTicks ∧ ¬ hasWalkableProbe
    then (MovementMode.surf, some st.surfContactNormal)
    else (mode0, asn0)
  let pair2 : MovementMode × Option Vec3 :=
    if pair1.1 = MovementMode.ground ∧ 0 < st.surfContactGraceTicks ∧
        optPred groundProbe
          (fun p => SURF_EDGE_GROUND_OVERRIDE_MIN_ANGLE_DEG ≤ p.slopeAngleDeg) ∧
        SURF_EDGE_OVERRIDE_MIN_SPEED < horizontalLength st.velocity
    then (MovementMode.surf, some (pair1.2.getD st.surfContactNormal))
    else pair1
  let asn := pair2.2
  let preserveLaunchFromSurf :=
    pair2.1 = MovementMode.ground ∧ 0 < st.surfContactGraceTicks ∧
      optPred groundProbe (fun p => p.slopeAngleDeg ≤ walkableAngle + 1) ∧
      max SURF_EDGE_LAUNCH_MIN_SPEED (cv.sv_maxspeed * 0.9) < horizontalLength st.velocity ∧
      st.velocity.y ≤ 0.9
  let mode3 := if preserveLaunchFromSurf then MovementMode.air else pair2.1
  let jumpRequested : Bool :=
    cv.sv_bhop_enabled && (input.jumpPressed || (cv.sv_autobhop_enabled && input.jumpHeld))
  let jumpTaken :=
    (mode3 = MovementMode.ground ∨ mode3 = MovementMode.surf) ∧ jumpRequested = true
  let vel0 := if jumpTaken then st.velocity.setY cv.sv_jump_impulse else st.velocity
  let mode4 := if jumpTaken then MovementMode.air else mode3
  let vel1 :=
    match mode4 with
    | MovementMode.ground => groundMove cv vel0 wish.1 wish.2 dt jumpRequested
    | MovementMode.surf => surfMove cv vel0 asn wish.1 wish.2 dt
    | MovementMode.air => airMove cv vel0 wish.1 wish.2 dt
  let vel2 := if mode4 ≠ MovementMode.ground ∨ jumpTaken
    then vel1.setY (vel1.y - cv.sv_gravity * dt) else vel1
  let preSlideVelocity := vel2
  let collisionSpeedBefore := vel2.length
  let slide := slideMove world cv st.surfContactGraceTicks st.surfContactNormal
    st.position vel2 dt (decide (mode4 = MovementMode.surf))
    (match asn with
     | some v => some v
     | none => groundProbe.map GroundProbe.normal)
  let groundProbe2 := world.queryGround slide.position controllerCapsule GROUND_PROBE_DIST
  let surfFromProbe := getSurfNormalFromProbe cv groundProbe2
  let surfFromCollision :=
    match slide.surfCollisionNormal with
    | some v => some v
    | none => getSurfNormalFromNormal cv slide.lastCollisionNormal
  let fallbackSurfFromMode :=
    mode4 = MovementMode.surf ∧ asn.isSome = true ∧
      optPred slide.lastCollisionNormal (fun m => |m.y| < 0.45)
  let surfNormalFound :=
    match surfFromProbe with
    | some v => some v
    | none =>
      match surfFromCollision with
      | some v => some v
      | none => if fallbackSurfFromMode then asn else none
  let post := postCollisionSurfUpdate cv surfNormalFound slide.lastCollisionNormal
    st.surfContactNormal st.surfContactGraceTicks slide.velocity preSlideVelocity
    collisionSpeedBefore
  let vel3 := post.1
  let preserveRampLaunch :=
    ¬ jumpTaken ∧ 0 < post.2.2 ∧
      optPred groundProbe2 (fun p => p.slopeAngleDeg ≤ walkableAngle + 1) ∧
      max SURF_EDGE_LAUNCH_MIN_SPEED (cv.sv_maxspeed * 0.9) < horizontalLength vel3 ∧
      vel3.y ≤ 0.9
  let snapped : Vec3 × Vec3 :=
    match groundProbe2 with
    | some p =>
      if ¬ preserveRampLaunch ∧ ¬ jumpTaken ∧ isWalkableProbe cv p ∧
          p.distance ≤ GROUND_SNAP_DIST
      then (p.position, if vel3.y < 0 then vel3.setY 0 else vel3)
      else (slide.position, vel3)
    | none => (slide.position, vel3)
  { st with
    position := snapped.1, velocity := snapped.2,
    surfContactNormal := post.2.1, surfContactGraceTicks := post.2.2 }

/-- States of the movement controller reachable through field initialization,
`reset` calls and `tick` calls. -/
inductive Reachable : ControllerState → Prop
  | init : Reachable initialState
  | reset (st : ControllerState) (position : Vec3) (yawDeg : ℝ) :
      Reachable st → Reachable (resetController st position yawDeg)
  | step (st : ControllerState) (dt : ℝ) (input : MoveInput) (world : CollisionAdapter) :
      Reachable st → Reachable (tick st dt input world)

lemma clampHorizontalSpeed_le (v : Vec3) (m : ℝ) (hm : EPSILON ≤ m) :
    horizontalLength (clampHorizontalSpeed v m) ≤ m := by
  have hs : horizontalLength v = Real.sqrt (v.x ^ 2 + v.z ^ 2) := rfl
  simp only [clampHorizontalSpeed]
  by_cases h : Real.sqrt (v.x ^ 2 + v.z ^ 2) ≤ m ∨ Real.sqrt (v.x ^ 2 + v.z ^ 2) ≤ EPSILON
  · rw [if_pos h]
    rcases h with h | h
    · exact hs ▸ h
    · exact le_trans (hs ▸ h) hm
  · rw [if_neg h]
    push_neg at h
    obtain ⟨h1, h2⟩ := h
    have hpos : 0 < Real.sqrt (v.x ^ 2 + v.z ^ 2) :=
      lt_trans (by norm_num [EPSILON]) h2
    have hsc : 0 ≤ m / Real.sqrt (v.x ^ 2 + v.z ^ 2) := by
      have hm0 : 0 < m := lt_of_lt_of_le (by norm_num [EPSILON]) hm
      positivity
    rw [horizontalLength_scale v _ hsc, hs, div_mul_cancel₀ _ (ne_of_gt hpos)]

/-- C5 counterexample: with zero wish input the acceleration-and-clamp step
returns early, so a fast grounded actor keeps a horizontal speed above
`sv_maxspeed` through the whole ground-mode velocity update (friction applied,
no jump). -/
theorem groundMove_clamp_counterexample :
    defaultCvars.sv_maxspeed <
      horizontalLength (groundMove defaultCvars ⟨100, 0, 0⟩ Vec3.zero 0 (1 / 128) false) := by
  have h100 : Real.sqrt ((100 : ℝ) ^ 2 + 0 ^ 2) = 100 := by
    rw [show ((100 : ℝ) ^ 2 + 0 ^ 2) = 100 ^ 2 by norm_num, Real.sqrt_sq (by norm_num)]
  have hfr : applyFriction ⟨100, 0, 0⟩ (1 / 128) defaultCvars.sv_friction
      defaultCvars.sv_stopspeed = ⟨95.9375, 0, 0⟩ := by
    simp only [applyFriction, h100, defaultCvars]
    rw [if_neg (by norm_num [EPSILON])]
    rw [show max (100 : ℝ) 2.4 = 100 from max_eq_left (by norm_num)]
    rw [show max (0 : ℝ) (100 - 100 * 5.2 * (1 / 128)) = 95.9375 by
      rw [max_eq_right (by norm_num)]; norm_num]
    ext <;> norm_num
  have hgm : groundMove defaultCvars ⟨100, 0, 0⟩ Vec3.zero 0 (1 / 128) false =
      ⟨95.9375, 0, 0⟩ := by
    simp only [groundMove, Bool.false_eq_true, if_false, hfr, accelerateGround]
    rw [if_pos (Or.inl le_rfl)]
    rw [if_neg (by norm_num)]
  rw [hgm]
  have hh : horizontalLength ⟨95.9375, 0, 0⟩ = 95.9375 := by
    unfold horizontalLength
    rw [show ((95.9375 : ℝ) ^ 2 + 0 ^ 2) = 95.9375 ^ 2 by norm_num,
      Real.sqrt_sq (by norm_num)]
  rw [hh]
  norm_num [defaultCvars]

/-- **C5 (amended).** In the ground-mode velocity update with no jump, ground
friction is applied first, then ground acceleration toward the wish vector
with the horizontal speed clamped to `sv_maxspeed`, then any downward
vertical velocity is zeroed; provided the wish input is non-degenerate
(positive wish speed and a non-zero wish direction, otherwise
`accelerateGround` returns early without clamping) and `sv_maxspeed` is at
least `EPSILON`, the post-update horizontal speed is at most `sv_maxspeed`
and the post-update vertical velocity is non-negative. -/
theorem groundMove_spec (cv : SourceCvars) (vel wishDir : Vec3) (wishSpeed dt : ℝ)
    (hw : 0 < wishSpeed) (hd : 0 < wishDir.lengthSq) (hm : EPSILON ≤ cv.sv_maxspeed) :
    horizontalLength (groundMove cv vel wishDir wishSpeed dt false) ≤ cv.sv_maxspeed ∧
    0 ≤ (groundMove cv vel wishDir wishSpeed dt false).y := by
  simp only [groundMove, Bool.false_eq_true, if_false]
  set v1 := applyFriction vel dt cv.sv_friction cv.sv_stopspeed with hv1
  have hacc : accelerateGround cv v1 wishDir wishSpeed dt =
      clampHorizontalSpeed (accelerate v1 wishDir wishSpeed cv.sv_accelerate dt 1)
        cv.sv_maxspeed := by
    unfold accelerateGround
    rw [if_neg]
    push_neg
    exact ⟨hw, hd⟩
  rw [hacc]
  set v2 := clampHorizontalSpeed (accelerate v1 wishDir wishSpeed cv.sv_accelerate dt 1)
    cv.sv_maxspeed with hv2
  constructor
  · by_cases hy : v2.y < 0
    · rw [if_pos hy]
      have hsame : horizontalLength (v2.setY 0) = horizontalLength v2 := rfl
      rw [hsame, hv2]
      exact clampHorizontalSpeed_le _ _ hm
    · rw [if_neg hy]
      rw [hv2]
      exact clampHorizontalSpeed_le _ _ hm
  · by_cases hy : v2.y < 0
    · rw [if_pos hy]
      norm_num [Vec3.setY]
    · rw [if_neg hy]
      exact not_lt.mp hy

/-- Witness for the amended C5 at concrete inputs with non-degenerate wish. -/
theorem groundMove_spec_witness :
    horizontalLength (groundMove defaultCvars ⟨15, -1, 0⟩ ⟨1, 0, 0⟩ 9.5 (1 / 128) false) ≤
      defaultCvars.sv_maxspeed ∧
    0 ≤ (groundMove defaultCvars ⟨15, -1, 0⟩ ⟨1, 0, 0⟩ 9.5 (1 / 128) false).y :=
  groundMove_spec defaultCvars ⟨15, -1, 0⟩ ⟨1, 0, 0⟩ 9.5 (1 / 128)
    (by norm_num) (by norm_num [Vec3.lengthSq]) (by norm_num [EPSILON, defaultCvars])

/-- **C7.** Whenever Step 7 of the tick finds a surf normal `n`: the grace
counter is reset to exactly 20 and `n` is recorded as the surf-contact
memory; and if the post-collision (post-clip) speed dropped below 60% of the
pre-collision speed, the reconstructed velocity — the pre-collision velocity
clipped against `n` — is meaningfully faster (by more than 0.05), and the
capped magnitude is non-negligible, then that reconstructed velocity is
adopted with its magnitude capped at 97% of the pre-collision speed. -/
theorem postCollisionSurfUpdate_surfFound (cv : SourceCvars) (n : Vec3)
    (lastN : Option Vec3) (memory : Vec3) (g : ℝ) (vel preSlide : Vec3) (before : ℝ) :
    (postCollisionSurfUpdate cv (some n) lastN memory g vel preSlide before).2.2 = 20 ∧
    (postCollisionSurfUpdate cv (some n) lastN memory g vel preSlide before).2.1 = n ∧
    (1e-4 < before →
      (removeIntoRamp (clipVelocity vel n cv.overbounce) n).length < before * 0.6 →
      (removeIntoRamp (clipVelocity vel n cv.overbounce) n).length + 0.05 <
        (removeIntoRamp (clipVelocity preSlide n cv.overbounce) n).length →
      1e-4 < min (removeIntoRamp (clipVelocity preSlide n cv.overbounce) n).length
        (before * 0.97) →
      (postCollisionSurfUpdate cv (some n) lastN memory g vel preSlide before).1 =
        (removeIntoRamp (clipVelocity preSlide n cv.overbounce) n).setLength
          (min (removeIntoRamp (clipVelocity preSlide n cv.overbounce) n).length
            (before * 0.97))) := by
  have hmain : postCollisionSurfUpdate cv (some n) lastN memory g vel preSlide before =
      (recoverSurfEdgeSpeed cv (removeIntoRamp (clipVelocity vel n cv.overbounce) n)
          preSlide n before, n,
        if optPred lastN (fun m => |m.y| < 0.25) ∧
            SURF_EDGE_OVERRIDE_MIN_SPEED < horizontalLength
              (recoverSurfEdgeSpeed cv (removeIntoRamp (clipVelocity vel n cv.overbounce) n)
                preSlide n before) then
          max SURF_CONTACT_GRACE_TICKS 2
        else SURF_CONTACT_GRACE_TICKS) := rfl
  have hrec : ∀ (v : Vec3), recoverSurfEdgeSpeed cv v preSlide n before =
      if before ≤ 1e-4 ∨ before * 0.6 ≤ v.length then v
      else if (removeIntoRamp (clipVelocity preSlide n cv.overbounce) n).length ≤
          v.length + 0.05 then v
      else if min (removeIntoRamp (clipVelocity preSlide n cv.overbounce) n).length
          (before * 0.97) ≤ 1e-4 then v
      else (removeIntoRamp (clipVelocity preSlide n cv.overbounce) n).setLength
        (min (removeIntoRamp (clipVelocity preSlide n cv.overbounce) n).length
          (before * 0.97)) := fun _ => rfl
  rw [hmain]
  refine ⟨?_, rfl, ?_⟩
  · show (if _ then max SURF_CONTACT_GRACE_TICKS 2 else SURF_CONTACT_GRACE_TICKS) = (20 : ℝ)
    split
    · rw [max_eq_left (by norm_num [SURF_CONTACT_GRACE_TICKS])]
      norm_num [SURF_CONTACT_GRACE_TICKS]
    · norm_num [SURF_CONTACT_GRACE_TICKS]
  · intro h1 h2 h3 h4
    show recoverSurfEdgeSpeed cv (removeIntoRamp (clipVelocity vel n cv.overbounce) n)
        preSlide n before = _
    rw [hrec]
    rw [if_neg (by push_neg; exact ⟨h1, h2⟩)]
    rw [if_neg (not_le.mpr h3)]
    rw [if_neg (not_le.mpr h4)]

lemma length_001 : (⟨0, 0, 1⟩ : Vec3).length = 1 := by
  unfold Vec3.length Vec3.lengthSq
  norm_num

lemma length_003 : (⟨0, 0, 3⟩ : Vec3).length = 3 := by
  unfold Vec3.length Vec3.lengthSq
  rw [show ((0 : ℝ) * 0 + 0 * 0 + 3 * 3) = 3 ^ 2 by norm_num, Real.sqrt_sq (by norm_num)]

lemma clip_r1 : removeIntoRamp (clipVelocity ⟨0, 0, 1⟩ ⟨1, 0, 0⟩ 1) ⟨1, 0, 0⟩ =
    (⟨0, 0, 1⟩ : Vec3) := by
  simp only [clipVelocity, removeIntoRamp, Vec3.dot, Vec3.addScaled, Vec3.smul_def,
    Vec3.add_def]
  norm_num

lemma clip_r2 : removeIntoRamp (clipVelocity ⟨-4, 0, 3⟩ ⟨1, 0, 0⟩ 1) ⟨1, 0, 0⟩ =
    (⟨0, 0, 3⟩ : Vec3) := by
  simp only [clipVelocity, removeIntoRamp, Vec3.dot, Vec3.addScaled, Vec3.smul_def,
    Vec3.add_def]
  norm_num

/-- Witness for C7 at a concrete surf-found step with a severe speed drop. -/
theorem postCollisionSurfUpdate_surfFound_witness :
    (postCollisionSurfUpdate { defaultCvars with overbounce := 1 } (some ⟨1, 0, 0⟩) none
      ⟨0, 1, 0⟩ 0 ⟨0, 0, 1⟩ ⟨-4, 0, 3⟩ 5).2.2 = 20 ∧
    (postCollisionSurfUpdate { defaultCvars with overbounce := 1 } (some ⟨1, 0, 0⟩) none
      ⟨0, 1, 0⟩ 0 ⟨0, 0, 1⟩ ⟨-4, 0, 3⟩ 5).2.1 = ⟨1, 0, 0⟩ ∧
    (postCollisionSurfUpdate { defaultCvars with overbounce := 1 } (some ⟨1, 0, 0⟩) none
      ⟨0, 1, 0⟩ 0 ⟨0, 0, 1⟩ ⟨-4, 0, 3⟩ 5).1 = ⟨0, 0, 3⟩ := by
  have hob : ({ defaultCvars with overbounce := 1 } : SourceCvars).overbounce = 1 := rfl
  have hth := postCollisionSurfUpdate_surfFound { defaultCvars with overbounce := 1 }
    ⟨1, 0, 0⟩ none ⟨0, 1, 0⟩ 0 ⟨0, 0, 1⟩ ⟨-4, 0, 3⟩ 5
  rw [hob, clip_r1, clip_r2, length_001, length_003] at hth
  refine ⟨hth.1, hth.2.1, ?_⟩
  have hmin : min (3 : ℝ) (5 * 0.97) = 3 := min_eq_left (by norm_num)
  have hset : (⟨0, 0, 3⟩ : Vec3).setLength 3 = ⟨0, 0, 3⟩ := by
    unfold Vec3.setLength Vec3.normalize
    rw [length_003]
    norm_num [Vec3.smul_def]
  have := hth.2.2 (by norm_num) (by norm_num) (by norm_num) (by rw [hmin]; norm_num)
  rw [hmin] at this
  rw [this, hset]

lemma postCollisionMain_grace_bound (cv : SourceCvars)
    (surfNormal lastN : Option Vec3) (memory : Vec3) (k : ℤ)
    (hk0 : 0 ≤ k) (hk20 : k ≤ 20) (vel pre : Vec3) (before : ℝ) :
    ∃ j : ℤ, (postCollisionMain cv surfNormal lastN memory (k : ℝ) vel pre before).2.2 = j ∧
      0 ≤ j ∧ j ≤ 20 := by
  cases surfNormal with
  | some n =>
    exact ⟨20, by norm_num [postCollisionMain, SURF_CONTACT_GRACE_TICKS], by norm_num,
      by norm_num⟩
  | none =>
    simp only [postCollisionMain]
    by_cases hA : 0 < (k : ℝ) ∧ (0.2 < before ∧ vel.length < before * 0.5) ∧
        optPred lastN (fun m => |m.y| < 0.35)
    · rw [if_pos hA]
      refine ⟨max 0 (k - 1), ?_, le_max_left _ _, max_le (by norm_num) (by omega)⟩
      push_cast
      rfl
    · rw [if_neg hA]
      by_cases hB : 0 < (k : ℝ)
      · rw [if_pos hB]
        by_cases hC : optPred lastN (fun m => |m.y| < 0.25) ∧
            SURF_EDGE_OVERRIDE_MIN_SPEED < horizontalLength vel
        · rw [if_pos hC]
          exact ⟨k, rfl, hk0, hk20⟩
        · rw [if_neg hC]
          have hkpos : 0 < k := by exact_mod_cast hB
          refine ⟨k - 1, ?_, by omega, by omega⟩
          push_cast
          ring
      · rw [if_neg hB]
        exact ⟨k, rfl, hk0, hk20⟩

lemma postCollisionSurfUpdate_grace_bound (cv : SourceCvars)
    (surfNormal lastN : Option Vec3) (memory : Vec3) (g : ℝ) (vel pre : Vec3)
    (before : ℝ) (h : ∃ k : ℤ, g = k ∧ 0 ≤ k ∧ k ≤ 20) :
    ∃ j : ℤ, (postCollisionSurfUpdate cv surfNormal lastN memory g vel pre before).2.2 = j ∧
      0 ≤ j ∧ j ≤ 20 := by
  obtain ⟨k, rfl, hk0, hk20⟩ := h
  obtain ⟨j, hj, hj0, hj20⟩ :=
    postCollisionMain_grace_bound cv surfNormal lastN memory k hk0 hk20 vel pre before
  have hgr : (postCollisionSurfUpdate cv surfNormal lastN memory (k : ℝ) vel pre before).2.2 =
      (if optPred lastN (fun m => |m.y| < 0.25) ∧ SURF_EDGE_OVERRIDE_MIN_SPEED <
          horizontalLength (postCollisionMain cv surfNormal lastN memory (k : ℝ)
            vel pre before).1 then
        max (postCollisionMain cv surfNormal lastN memory (k : ℝ) vel pre before).2.2 2
      else (postCollisionMain cv surfNormal lastN memory (k : ℝ) vel pre before).2.2) := rfl
  rw [hgr]
  split
  · refine ⟨max j 2, ?_, le_trans (by norm_num) (le_max_right _ _),
      max_le hj20 (by norm_num)⟩
    rw [hj]
    push_cast
    rfl
  · exact ⟨j, hj, hj0, hj20⟩

/-- The grace counter a tick leaves behind is exactly the one computed by the
Step 7 block for some intermediate values; no later step of the tick writes
it. -/
lemma tick_grace_shape (st : ControllerState) (dt : ℝ) (input : MoveInput)
    (world : CollisionAdapter) :
    ∃ (sn ln : Option Vec3) (vel pre : Vec3) (before : ℝ),
      (tick st dt input world).surfContactGraceTicks =
        (postCollisionSurfUpdate st.cvars sn ln st.surfContactNormal
          st.surfContactGraceTicks vel pre before).2.2 :=
  ⟨_, _, _, _, _, rfl⟩

/-- **C10.** The surf-contact grace counter is always an integer in `[0, 20]`:
construction and `reset` set it to 0, a found surf normal sets it to exactly
20, and every other update inside `tick` decrements it no lower than 0, holds
it, or raises it to at most 2 — so every state reachable by any sequence of
`reset` and `tick` calls satisfies `0 ≤ surfContactGraceTicks ≤ 20`. -/
theorem surfContactGraceTicks_invariant (s : ControllerState) (h : Reachable s) :
    ∃ k : ℤ, s.surfContactGraceTicks = k ∧ 0 ≤ k ∧ k ≤ 20 := by
  induction h with
  | init => exact ⟨0, by norm_num [initialState], by norm_num, by norm_num⟩
  | reset st p yawDeg hr ih => exact ⟨0, by norm_num [resetController], by norm_num, by norm_num⟩
  | step st dt input world hr ih =>
    obtain ⟨sn, ln, vel, pre, before, heq⟩ := tick_grace_shape st dt input world
    rw [heq]
    exact postCollisionSurfUpdate_grace_bound st.cvars sn ln st.surfContactNormal
      st.surfContactGraceTicks vel pre before ih

/-- Witness for C10: the invariant applied to the initial state. -/
theorem surfContactGraceTicks_invariant_witness :
    ∃ k : ℤ, initialState.surfContactGraceTicks = k ∧ 0 ≤ k ∧ k ≤ 20 :=
  surfContactGraceTicks_invariant initialState Reachable.init

/-! ## Loop budgets (claim C9) -/

/-- Number of bump-loop iterations executed (each performs one capsule
trace); shares the loop-top test and iteration body with `bumpLoop`. -/
def bumpLoopCount (world : CollisionAdapter) (cv : SourceCvars) (graceTicks : ℝ)
    (surfContactNormal : Vec3) (dt : ℝ) (surfingTick : Bool) (surfNormal : Option Vec3) :
    Nat → BumpState → Nat
  | 0, _ => 0
  | n + 1, st =>
    if bumpCheck st then 0
    else
      match bumpBody world cv graceTicks surfContactNormal dt surfingTick surfNormal st with
      | BumpOutcome.halt _ => 1
      | BumpOutcome.next s =>
        1 + bumpLoopCount world cv graceTicks surfContactNormal dt surfingTick surfNormal n s

/-- Number of coarse sweep samples `traceCapsule` examines: the index of the
first colliding sample, or all 12 on a clean path. -/
def coarseSampleCount (geom : WorldGeometry) (capsule : CapsuleShape) (cs ce : Vec3) : Nat :=
  match coarseFirstHit geom capsule cs ce with
  | some i => i
  | none => 12

/-- Number of overlap queries performed by the bisection refinement; shares
its step with `bisectLoop`. -/
def bisectQueryCount (geom : WorldGeometry) (capsule : CapsuleShape) (cs ce : Vec3) :
    Nat → ℝ × ℝ → Nat
  | 0, _ => 0
  | n + 1, lh =>
    let mid := (lh.1 + lh.2) * 0.5
    if (computeOverlap geom (lerpV cs ce mid) capsule false).collided
    then 1 + bisectQueryCount geom capsule cs ce n (lh.1, mid)
    else 1 + bisectQueryCount geom capsule cs ce n (mid, lh.2)

/-- Number of shapecast passes performed by `computeOverlap`'s correction
loop; shares its pass with `overlapIterLoop`. -/
def overlapPassCount (tris : List TriCapability) (radius : ℝ) (resolve : Bool) :
    Nat → OverlapAcc → Nat
  | 0, _ => 0
  | n + 1, acc =>
    let acc1 := tris.foldl (overlapTriStep radius resolve) { acc with iterCollided := false }
    if acc1.iterCollided then 1 + overlapPassCount tris radius resolve n acc1 else 1

lemma bumpLoopCount_le (world : CollisionAdapter) (cv : SourceCvars) (graceTicks : ℝ)
    (surfContactNormal : Vec3) (dt : ℝ) (surfingTick : Bool) (surfNormal : Option Vec3) :
    ∀ (n : Nat) (st : BumpState),
      bumpLoopCount world cv graceTicks surfContactNormal dt surfingTick surfNormal n st ≤ n := by
  intro n
  induction n with
  | zero => intro st; exact le_refl 0
  | succ n ih =>
    intro st
    simp only [bumpLoopCount]
    split
    · omega
    · split
      · omega
      · rename_i s heq
        have := ih s
        omega

lemma bisectQueryCount_eq (geom : WorldGeometry) (capsule : CapsuleShape) (cs ce : Vec3) :
    ∀ (n : Nat) (lh : ℝ × ℝ), bisectQueryCount geom capsule cs ce n lh = n := by
  intro n
  induction n with
  | zero => intro lh; rfl
  | succ n ih =>
    intro lh
    simp only [bisectQueryCount]
    split <;> rw [ih] <;> omega

lemma overlapPassCount_le (tris : List TriCapability) (radius : ℝ) (resolve : Bool) :
    ∀ (n : Nat) (acc : OverlapAcc), overlapPassCount tris radius resolve n acc ≤ n := by
  intro n
  induction n with
  | zero => intro acc; exact le_refl 0
  | succ n ih =>
    intro acc
    simp only [overlapPassCount]
    split
    · have := ih (tris.foldl (overlapTriStep radius resolve) { acc with iterCollided := false })
      omega
    · omega

lemma coarseSampleCount_le (geom : WorldGeometry) (capsule : CapsuleShape) (cs ce : Vec3) :
    coarseSampleCount geom capsule cs ce ≤ 12 := by
  unfold coarseSampleCount
  rcases hfind : coarseFirstHit geom capsule cs ce with _ | i
  · exact le_refl 12
  · obtain ⟨k, hk, hfk⟩ := List.exists_of_findSome?_eq_some hfind
    rw [List.mem_range] at hk
    by_cases hc : (computeOverlap geom (lerpV cs ce (((k : ℝ) + 1) / 12)) capsule
        false).collided
    · rw [if_pos hc, Option.some_inj] at hfk
      show i ≤ 12
      omega
    · rw [if_neg hc] at hfk
      exact absurd hfk (by simp)

/-- **C9.** Every loop in the tick pipeline runs on a fixed fuel budget, so a
tick always terminates (`tick` is a total function by construction): the
sliding-collision bump loop of `slideMove` executes at most `MAX_BUMPS = 4`
iterations, `traceCapsule` examines at most 12 coarse samples and performs
exactly 8 overlap queries in its bisection refinement, and
`resolveCapsulePosition`'s overlap loop runs at most 3 correction passes. -/
theorem tick_loop_budgets :
    (∀ (world : CollisionAdapter) (cv : SourceCvars) (graceTicks : ℝ)
        (surfContactNormal : Vec3) (dt : ℝ) (surfingTick : Bool)
        (surfNormal : Option Vec3) (st : BumpState),
      bumpLoopCount world cv graceTicks surfContactNormal dt surfingTick surfNormal
        MAX_BUMPS st ≤ 4) ∧
    (∀ (geom : WorldGeometry) (capsule : CapsuleShape) (cs ce : Vec3),
      coarseSampleCount geom capsule cs ce ≤ 12) ∧
    (∀ (geom : WorldGeometry) (capsule : CapsuleShape) (cs ce : Vec3) (lh : ℝ × ℝ),
      bisectQueryCount geom capsule cs ce 8 lh = 8) ∧
    (∀ (tris : List TriCapability) (radius : ℝ) (resolve : Bool) (acc : OverlapAcc),
      overlapPassCount tris radius resolve 3 acc ≤ 3) :=
  ⟨fun world cv g scn dt s sn st => bumpLoopCount_le world cv g scn dt s sn MAX_BUMPS st,
   fun geom capsule cs ce => coarseSampleCount_le geom capsule cs ce,
   fun geom capsule cs ce lh => bisectQueryCount_eq geom capsule cs ce 8 lh,
   fun tris radius resolve acc => overlapPassCount_le tris radius resolve 3 acc⟩

end WebStrafe
